import Mathlib

/-!
Verification development for the Finviz scraper (`web_scapper.py`).

The Python module defines a class `FinvizScraper` with:
  * a request throttler (`_make_request`, lines 46-80): rate limiting against
    `last_request_time` / `min_request_interval`, a cyclic user-agent pool
    (`itertools.cycle`), and a uniform jitter sleep in [0.5, 1.5];
  * an HTML snapshot parser (`get_company_data`, lines 82-120) producing a
    dict of field label to value;
  * a sector table parser (`get_sector_data`, lines 122-171);
  * a pure scoring layer (`get_stock_rating_data` and the three
    `_calculate_*_score` helpers, lines 173-287).

Shallow embedding conventions:
  * Python floats are modelled as exact rationals (ℚ); the literals 3.33,
    0.5, 1.5 and so on denote the corresponding exact decimal rationals.
  * Python's dynamic `float`-or-`str` values are the tagged union `Value`;
    an operation that would raise a `TypeError` in Python (comparing a str
    with an int) is modelled in the `Except String` monad.
  * Python dicts built by repeated assignment are association lists where
    the *last* binding for a key wins (`dictGet`).
  * BeautifulSoup documents are lists of tables (`HTable`): each table has
    an optional class attribute, an optional id attribute and a list of
    rows; each row (`SRow`) has an optional class attribute and cell texts.
  * Wall-clock time and the jitter sample are explicit ℚ parameters:
    `time.sleep d` advances the clock by exactly `d`, `random.uniform a b`
    is an arbitrary parameter constrained to `[a, b]`.
-/

namespace FinvizScraper

/-- Dynamic value of a snapshot dict entry: Python float-or-str
(`Union[float, str]` in the source annotations). -/
inductive Value where
  | num : ℚ → Value
  | str : String → Value
deriving DecidableEq, Repr

/-- A `CompanySnapshot`: insertion-ordered bindings, later assignment to the
same key shadows the earlier one (Python dict semantics). -/
abbrev Snapshot := List (String × Value)

/-- `d.get(k, default)` on a Python dict represented as an assignment
history: the last binding for `k` wins, `default` if `k` was never bound. -/
def dictGet (d : Snapshot) (k : String) (default : Value) : Value :=
  match d.reverse.find? (fun p => p.1 == k) with
  | some p => p.2
  | none => default

/-- Value of a digit string (most significant first). -/
def digitsToNat (cs : List Char) : Nat :=
  cs.foldl (fun a c => 10 * a + (c.toNat - 48)) 0

/-- Python's `str.strip()` with no argument: remove leading and trailing
whitespace. -/
def pyStrip (s : String) : String :=
  String.mk (((s.data.dropWhile (fun c => c.isWhitespace)).reverse.dropWhile
    (fun c => c.isWhitespace)).reverse)

/-- Exponent digits after an optional sign has been consumed: nonempty and
all digits, with the sign applied. -/
def parseExpDigits (positive : Bool) (cs : List Char) : Option Int :=
  if cs ≠ [] ∧ cs.all (fun c => c.isDigit) then
    some (if positive then (digitsToNat cs : Int) else -(digitsToNat cs : Int))
  else none

/-- Exponent part after the letter `e`/`E`: optional sign then digits. -/
def parseExpPart : List Char → Option Int
  | '+' :: rest => parseExpDigits true rest
  | '-' :: rest => parseExpDigits false rest
  | rest => parseExpDigits true rest

/-- Unsigned decimal mantissa: digits, optionally a point and more digits,
with at least one digit overall; returns the value and the unconsumed
suffix. -/
def parseMantissa (cs : List Char) : Option (ℚ × List Char) :=
  let intDigits := cs.takeWhile (fun c => c.isDigit)
  let rest := cs.dropWhile (fun c => c.isDigit)
  match rest with
  | '.' :: rest2 =>
    let fracDigits := rest2.takeWhile (fun c => c.isDigit)
    let rest3 := rest2.dropWhile (fun c => c.isDigit)
    if intDigits.isEmpty ∧ fracDigits.isEmpty then none
    else some ((digitsToNat intDigits : ℚ)
      + (digitsToNat fracDigits : ℚ) / (10 : ℚ) ^ fracDigits.length, rest3)
  | _ => if intDigits.isEmpty then none else some ((digitsToNat intDigits : ℚ), rest)

/-- Python's `float(s)` on finite decimal literals: optional surrounding
whitespace, optional sign, decimal mantissa, optional exponent; `none` when
the parse fails (Python raises `ValueError` there).  The non-finite
literals `inf`/`nan` and digit-group underscores, which Python also
accepts, have no rational counterpart and are outside this model; no value
analysed here contains them. -/
def pyFloat (s : String) : Option ℚ :=
  let cs := (pyStrip s).data
  let signed : ℚ × List Char :=
    match cs with
    | '+' :: r => (1, r)
    | '-' :: r => (-1, r)
    | r => (1, r)
  match parseMantissa signed.2 with
  | none => none
  | some (m, rest) =>
    match rest with
    | [] => some (signed.1 * m)
    | 'e' :: r =>
      match parseExpPart r with
      | some e => some (signed.1 * m * (10 : ℚ) ^ e)
      | none => none
    | 'E' :: r =>
      match parseExpPart r with
      | some e => some (signed.1 * m * (10 : ℚ) ^ e)
      | none => none
    | _ => none

/-- `_convert_value` (lines 224-234): strip every comma and percent sign,
try the float conversion, and on failure return the *stripped* string (the
source rebinds `value` before the try). -/
def _convert_value (value : String) : Value :=
  let value := String.mk (value.data.filter (fun c => !(c == ',' || c == '%')))
  match pyFloat value with
  | some q => Value.num q
  | none => Value.str value

/-- `np.mean(scores) if scores else 0`: arithmetic mean of a nonempty score
list, 0 for the empty list. -/
def meanOrZero (scores : List ℚ) : ℚ :=
  if scores.isEmpty then 0 else scores.sum / scores.length

/-- P/E component of `_calculate_valuation_score` (lines 241-243): included
only when `pe > 0`, value `max(0, min(100, (30 - pe) * 3.33))`. -/
def peComponent (pe : ℚ) : List ℚ :=
  if pe > 0 then [max 0 (min 100 ((30 - pe) * 3.33))] else []

/-- PEG component (lines 246-248): included only when `peg > 0`, value
`max(0, min(100, (2 - abs(1 - peg)) * 50))`. -/
def pegComponent (peg : ℚ) : List ℚ :=
  if peg > 0 then [max 0 (min 100 ((2 - |1 - peg|) * 50))] else []

/-- P/B component (lines 251-253): included only when `pb > 0`, value
`max(0, min(100, (5 - pb) * 20))`. -/
def pbComponent (pb : ℚ) : List ℚ :=
  if pb > 0 then [max 0 (min 100 ((5 - pb) * 20))] else []

/-- The `scores` list built by `_calculate_valuation_score`, in source
order. -/
def valuationScores (pe peg pb : ℚ) : List ℚ :=
  peComponent pe ++ pegComponent peg ++ pbComponent pb

/-- `_calculate_valuation_score` (lines 236-255) on numeric inputs. -/
def _calculate_valuation_score (pe peg pb : ℚ) : ℚ :=
  meanOrZero (valuationScores pe peg pb)

/-- One growth component (lines 262-269): the `is not None` guard always
holds for a numeric value, so the component is always included, value
`max(0, min(100, growth * 5))`. -/
def growthComponent (growth : ℚ) : List ℚ :=
  [max 0 (min 100 (growth * 5))]

/-- `_calculate_growth_score` (lines 257-271) on numeric inputs. -/
def _calculate_growth_score (earnings_growth sales_growth : ℚ) : ℚ :=
  meanOrZero (growthComponent earnings_growth ++ growthComponent sales_growth)

/-- Current-ratio component of `_calculate_financial_health_score`
(lines 278-280): included only when `current_ratio > 0`, value
`max(0, min(100, current_ratio * 50))`. -/
def currentRatioComponent (current_ratio : ℚ) : List ℚ :=
  if current_ratio > 0 then [max 0 (min 100 (current_ratio * 50))] else []

/-- Debt/equity component (lines 283-285): included whenever
`debt_equity >= 0`, value `max(0, min(100, (2 - debt_equity) * 50))`. -/
def debtEquityComponent (debt_equity : ℚ) : List ℚ :=
  if debt_equity ≥ 0 then [max 0 (min 100 ((2 - debt_equity) * 50))] else []

/-- `_calculate_financial_health_score` (lines 273-287) on numeric
inputs. -/
def _calculate_financial_health_score (current_ratio debt_equity : ℚ) : ℚ :=
  meanOrZero (currentRatioComponent current_ratio ++ debtEquityComponent debt_equity)

/-- Run one component of a scorer on a dynamic value.  The source helpers
annotate their arguments as `float`, but `get_stock_rating_data` passes
whatever the snapshot dict holds; when that is a `str`, Python raises a
`TypeError` at the first str/int comparison it reaches — the `> 0` / `>= 0`
guard for the valuation and financial-health components, the `min(100, …)`
clamp for the growth component (after `str * 5` repeats the string).  Both
sites surface as an exception out of the component, which is what is
modelled here. -/
def applyComp (comp : ℚ → List ℚ) : Value → Except String (List ℚ)
  | Value.num q => Except.ok (comp q)
  | Value.str _ => Except.error "TypeError: comparison not supported between instances of str and int"

/-- `_calculate_valuation_score` as called on dynamic dict values. -/
def valuationScoreV (pe peg pb : Value) : Except String ℚ := do
  let s1 ← applyComp peComponent pe
  let s2 ← applyComp pegComponent peg
  let s3 ← applyComp pbComponent pb
  pure (meanOrZero (s1 ++ s2 ++ s3))

/-- `_calculate_growth_score` as called on dynamic dict values. -/
def growthScoreV (earnings_growth sales_growth : Value) : Except String ℚ := do
  let s1 ← applyComp growthComponent earnings_growth
  let s2 ← applyComp growthComponent sales_growth
  pure (meanOrZero (s1 ++ s2))

/-- `_calculate_financial_health_score` as called on dynamic dict values. -/
def financialHealthScoreV (current_ratio debt_equity : Value)
    : Except String ℚ := do
  let s1 ← applyComp currentRatioComponent current_ratio
  let s2 ← applyComp debtEquityComponent debt_equity
  pure (meanOrZero (s1 ++ s2))

/-- The `ratings` dict built by `get_stock_rating_data`. -/
structure Ratings where
  valuation_score : ℚ
  growth_score : ℚ
  financial_health_score : ℚ
  overall_score : ℚ
deriving DecidableEq, Repr

/-- `get_stock_rating_data` (lines 173-222): pull the six fields out of the
snapshot with numeric default 0, compute the three category scores, and
average them for the overall score.  The surrounding `try/except` logs and
re-raises, so an exception from a scorer propagates unchanged: the result
is `Except.error` exactly when a scorer raises. -/
def get_stock_rating_data (company_data : Snapshot) : Except String Ratings := do
  let pe_ratio := dictGet company_data "P/E" (Value.num 0)
  let peg_ratio := dictGet company_data "PEG" (Value.num 0)
  let pb_ratio := dictGet company_data "P/B" (Value.num 0)
  let valuation ← valuationScoreV pe_ratio peg_ratio pb_ratio
  let earnings_growth := dictGet company_data "EPS growth next 5 years" (Value.num 0)
  let sales_growth := dictGet company_data "Sales growth past 5 years" (Value.num 0)
  let growth ← growthScoreV earnings_growth sales_growth
  let current_ratio := dictGet company_data "Current Ratio" (Value.num 0)
  let debt_equity := dictGet company_data "Debt/Equity" (Value.num 0)
  let health ← financialHealthScoreV current_ratio debt_equity
  pure { valuation_score := valuation
         growth_score := growth
         financial_health_score := health
         overall_score := (valuation + growth + health) / 3 }

/-- A table row as seen by BeautifulSoup: optional `class` attribute and
the stripped text of its `td` cells. -/
structure SRow where
  cls : Option String := none
  cells : List String := []
deriving DecidableEq, Repr

/-- A `table` element: optional `class` attribute, optional `id`
attribute, and its `tr` rows. -/
structure HTable where
  cls : Option String := none
  tid : Option String := none
  rows : List SRow := []
deriving DecidableEq, Repr

/-- A parsed HTML document, reduced to the list of its tables in document
order (the only elements the scraper queries). -/
abbrev Doc := List HTable

/-- Consecutive cell pairs: the loop `for i in range(0, len(columns), 2)`
guarded by `i + 1 < len(columns)` — a trailing odd cell is dropped. -/
def pairUp : List String → List (String × String)
  | a :: b :: rest => (a, b) :: pairUp rest
  | _ => []

/-- The parsing phase of `get_company_data` (lines 98-116) on an already
fetched document: collect every table with class `snapshot-table2`, walk
each row's cells in (label, value) pairs, strip both, convert the value,
and assign into the dict.  No statement in this phase can raise, so the
result is always `Except.ok`; the `Except` codomain records that the
enclosing `try/except` would re-raise if anything did. -/
def get_company_data (doc : Doc) : Except String Snapshot :=
  let tables := doc.filter (fun t => t.cls == some "snapshot-table2")
  Except.ok (tables.foldl (fun data table =>
    table.rows.foldl (fun data row =>
      (pairUp row.cells).foldl (fun data kv =>
        data ++ [(pyStrip kv.1, _convert_value (pyStrip kv.2))]) data) data) [])

/-- The selector chain of `get_sector_data` (lines 138-140):
`find('table', class_='table-light') or find('table',
class_='groups-table-overview') or find('table',
{'id': 'groups-table-overview'})` — first match wins, `None` when no
selector matches any table. -/
def findSectorTable (doc : Doc) : Option HTable :=
  (doc.find? (fun t => t.cls == some "table-light")) <|>
  (doc.find? (fun t => t.cls == some "groups-table-overview")) <|>
  (doc.find? (fun t => t.tid == some "groups-table-overview"))

/-- `s.rstrip('%')`: drop trailing percent signs. -/
def rstripPct (s : String) : String :=
  String.mk ((s.data.reverse.dropWhile (fun c => c == '%')).reverse)

/-- One cell of a percentage column: `rstrip('%')`, parse as float, divide
by 100; a parse failure is pandas' `ValueError` from `astype('float')`. -/
def convertPctCell (s : String) : Except String Value :=
  match pyFloat (rstripPct s) with
  | some q => Except.ok (Value.num (q / 100))
  | none => Except.error "ValueError: could not convert string to float"

/-- The column-wise percentage pass of `get_sector_data` (lines 163-165):
a column is a percentage column when the first data row's cell for it
contains a percent sign; such columns are converted cell-wise, the rest
stay strings. -/
def convertColumns (first : List String) (rows : List (List String))
    : Except String (List (List Value)) :=
  rows.mapM (fun r => r.enum.mapM (fun jc =>
    if (first.getD jc.1 "").data.contains '%' then convertPctCell jc.2
    else Except.ok (Value.str jc.2)))

/-- The parsing phase of `get_sector_data` (lines 136-167) on an already
fetched document: locate the sector table through the selector chain and
raise `ValueError("Sector table not found")` when it is absent; otherwise
take the headers from the row with class `table-header` (empty when there
is none), drop the first row, strip every cell, and run the percentage
conversion.  `df[col].iloc[0]` on a frame with columns but no data rows is
pandas' `IndexError`.  The model covers rectangular data (every row as
long as the header row), which is the shape the DataFrame constructor
accepts. -/
def get_sector_data (doc : Doc) : Except String (List String × List (List Value)) :=
  match findSectorTable doc with
  | none => Except.error "Sector table not found"
  | some table =>
    let headers := match table.rows.find? (fun r => r.cls == some "table-header") with
      | some hr => hr.cells.map pyStrip
      | none => []
    let rows := (table.rows.drop 1).map (fun r => r.cells.map pyStrip)
    match rows with
    | [] =>
      if headers.isEmpty then Except.ok (headers, [])
      else Except.error "IndexError: single positional indexer is out-of-bounds"
    | first :: _ =>
      match convertColumns first rows with
      | Except.ok conv => Except.ok (headers, conv)
      | Except.error e => Except.error e

/-- The user-agent identity pool from `__init__` (lines 15-21). -/
def user_agents : List String :=
  ["Mozilla/5.0 (Windows NT 10.0; Win64; x64) AppleWebKit/537.36 (KHTML, like Gecko) Chrome/91.0.4472.124 Safari/537.36",
   "Mozilla/5.0 (Macintosh; Intel Mac OS X 10_15_7) AppleWebKit/537.36 (KHTML, like Gecko) Chrome/91.0.4472.124 Safari/537.36",
   "Mozilla/5.0 (Windows NT 10.0; Win64; x64; rv:89.0) Gecko/20100101 Firefox/89.0",
   "Mozilla/5.0 (Macintosh; Intel Mac OS X 10_15_7) AppleWebKit/605.1.15 (KHTML, like Gecko) Version/14.1.1 Safari/605.1.15",
   "Mozilla/5.0 (X11; Linux x86_64) AppleWebKit/537.36 (KHTML, like Gecko) Chrome/91.0.4472.124 Safari/537.36"]

/-- State of `itertools.cycle(pool)`: the suffix of the pool still to be
yielded before the next wrap, together with the full pool.  `cycle` first
yields the iterable's elements in order, then repeats the saved elements
forever. -/
abbrev CycleSt := List String × List String

/-- One `next(...)` on a cycle: yield the head of the pending suffix,
wrapping to the full pool when the suffix is exhausted; `next` on a cycle
of an empty pool raises `StopIteration`, modelled as `none`. -/
def cycleNext : CycleSt → Option String × CycleSt
  | (x :: rest, pool) => (some x, (rest, pool))
  | ([], []) => (none, ([], []))
  | ([], x :: rest) => (some x, (rest, x :: rest))

/-- The identity handed to the i-th request (counting from 0): request i
performs exactly one `next(self.user_agent_cycle)` (line 63). -/
def cycleNth (s : CycleSt) : Nat → Option String
  | 0 => (cycleNext s).1
  | n + 1 => cycleNth (cycleNext s).2 n

/-- A freshly constructed cycle over `pool` (line 22): everything pending,
nothing yet consumed. -/
def mkCycle (pool : List String) : CycleSt := (pool, pool)

/-- `min_request_interval` (line 31), in seconds. -/
def min_request_interval : ℚ := 2

/-- Timing model of the throttling prefix of `_make_request`
(lines 56-78): from the time `now` at entry and the recorded
`last_request_time`, sleep whatever remains of the minimum interval, then
sleep the jitter drawn by `random.uniform(0.5, 1.5)`; the returned instant
is when `requests.get` starts.  `last_request_time` is written after the
response returns, i.e. it is the end of the previous fetch. -/
def fetchStart (last_request_time now jitter : ℚ) : ℚ :=
  let time_since_last_request := now - last_request_time
  let afterRateLimit :=
    if time_since_last_request < min_request_interval then
      now + (min_request_interval - time_since_last_request)
    else now
  afterRateLimit + jitter

/-- A one-table document whose only snapshot row binds `P/E` to the
unparseable marker string `N/A`. -/
def sampleDoc : Doc :=
  [{ cls := some "snapshot-table2", rows := [{ cells := ["P/E", "N/A"] }] }]

/-- Membership in a guarded clamp-singleton forces the clamp bounds. -/
theorem mem_clamp_list {x v : ℚ} {c : Prop} [Decidable c]
    (hx : x ∈ if c then [max 0 (min 100 v)] else ([] : List ℚ)) :
    0 ≤ x ∧ x ≤ 100 := by
  split at hx
  · simp only [List.mem_singleton] at hx
    subst hx
    exact ⟨le_max_left 0 _, max_le (by norm_num) (min_le_left _ _)⟩
  · simp at hx

/-- Every score the valuation scorer collects is already clamped to
[0, 100]. -/
theorem valuationScores_mem (pe peg pb x : ℚ)
    (hx : x ∈ valuationScores pe peg pb) : 0 ≤ x ∧ x ≤ 100 := by
  simp only [valuationScores, List.mem_append] at hx
  rcases hx with (hx | hx) | hx
  · simp only [peComponent] at hx
    exact mem_clamp_list hx
  · simp only [pegComponent] at hx
    exact mem_clamp_list hx
  · simp only [pbComponent] at hx
    exact mem_clamp_list hx

/-- The guarded mean of nonnegative scores is nonnegative. -/
theorem meanOrZero_nonneg (l : List ℚ) (h : ∀ x ∈ l, 0 ≤ x) :
    0 ≤ meanOrZero l := by
  cases l with
  | nil => simp [meanOrZero]
  | cons a t =>
    rw [meanOrZero, if_neg (by simp)]
    exact div_nonneg (List.sum_nonneg h) (Nat.cast_nonneg _)

/-- The guarded mean of scores bounded by 100 is bounded by 100. -/
theorem meanOrZero_le_hundred (l : List ℚ) (h : ∀ x ∈ l, x ≤ 100) :
    meanOrZero l ≤ 100 := by
  cases l with
  | nil => simp [meanOrZero]
  | cons a t =>
    have hlen : (0 : ℚ) < ((a :: t).length : ℚ) := by
      exact_mod_cast Nat.succ_pos t.length
    have hsum : (a :: t).sum ≤ (a :: t).length • (100 : ℚ) :=
      List.sum_le_card_nsmul _ _ h
    rw [nsmul_eq_mul] at hsum
    rw [meanOrZero, if_neg (by simp), div_le_iff₀ hlen]
    linarith

/-- Evaluation of the rating pipeline on the empty snapshot: every field
defaults to numeric 0, the valuation score list is empty (score 0), both
growth components are included with value 0 (score 0), the current-ratio
component is excluded but the debt/equity component clamps (2 - 0) * 50
to 100 (score 100), and the overall mean is 100/3. -/
theorem rating_of_empty_snapshot :
    get_stock_rating_data ([] : Snapshot) = Except.ok ⟨0, 0, 100, 100 / 3⟩ := by
  simp [get_stock_rating_data, valuationScoreV, growthScoreV, financialHealthScoreV,
    applyComp, dictGet, peComponent, pegComponent, pbComponent, growthComponent,
    currentRatioComponent, debtEquityComponent, meanOrZero, min_def, max_def,
    Except.instMonad, Except.bind, Except.pure]
  norm_num

/-- C1: the spec's empty-snapshot scenario claims all three category
scores and the overall score are 0, i.e. the result is
`⟨0, 0, 0, 0⟩`.  It is not: the defaulted `Debt/Equity` of 0 passes the
`>= 0` guard, so the financial health score is 100. -/
theorem C1_counterexample :
    get_stock_rating_data ([] : Snapshot) ≠ Except.ok ⟨0, 0, 0, 0⟩ := by
  rw [rating_of_empty_snapshot]
  intro h
  have h2 := Except.ok.inj h
  rw [Ratings.mk.injEq] at h2
  norm_num at h2

/-- C1 (amended): on the empty snapshot, `get_stock_rating_data` returns
valuation score 0, growth score 0, financial health score 100 (the
defaulted debt/equity of 0 contributes a clamped component of 100 while
the current-ratio component is excluded), and overall score 100/3. -/
theorem C1_empty_snapshot_rating :
    get_stock_rating_data ([] : Snapshot) = Except.ok ⟨0, 0, 100, 100 / 3⟩ :=
  rating_of_empty_snapshot

/-- C2: the spec claims the valuation components for the snapshot
{P/E: 15, PEG: 1, P/B: 2} are [50.05, 100, 60]; the P/E component is in
fact (30 - 15) * 3.33 = 49.95. -/
theorem C2_counterexample : valuationScores 15 1 2 ≠ [50.05, 100, 60] := by
  norm_num [valuationScores, peComponent, pegComponent, pbComponent, min_def, max_def]

/-- C2 (amended): for the snapshot {P/E: 15, PEG: 1, P/B: 2} the
valuation components are [49.95, 100, 60] and the valuation score is
their mean 4199/60 ≈ 69.98, both as the bare scorer computes it and as it
appears in the rating set for that snapshot. -/
theorem C2_sample_snapshot_valuation :
    valuationScores 15 1 2 = [49.95, 100, 60] ∧
    _calculate_valuation_score 15 1 2 = 4199 / 60 ∧
    Except.map Ratings.valuation_score (get_stock_rating_data
        [("P/E", Value.num 15), ("PEG", Value.num 1), ("P/B", Value.num 2)])
      = Except.ok (4199 / 60) := by
  refine ⟨?_, ?_, ?_⟩
  · norm_num [valuationScores, peComponent, pegComponent, pbComponent, min_def, max_def]
  · norm_num [_calculate_valuation_score, valuationScores, peComponent, pegComponent,
      pbComponent, min_def, max_def, meanOrZero]
  · simp [get_stock_rating_data, valuationScoreV, growthScoreV, financialHealthScoreV,
      applyComp, dictGet, peComponent, pegComponent, pbComponent, growthComponent,
      currentRatioComponent, debtEquityComponent, meanOrZero, min_def, max_def,
      Except.instMonad, Except.bind, Except.pure, Except.map]
    norm_num

/-- C3: for all numeric inputs the valuation score lies in [0, 100]; the
P/E component at PE = 30 is the single clamped value 0; a non-positive PE
is excluded from the score list rather than contributing; and when all
three inputs are non-positive the valuation score is 0. -/
theorem C3_valuation_bounds (pe peg pb : ℚ) :
    (0 ≤ _calculate_valuation_score pe peg pb ∧
      _calculate_valuation_score pe peg pb ≤ 100) ∧
    peComponent 30 = [0] ∧
    (pe ≤ 0 → valuationScores pe peg pb = pegComponent peg ++ pbComponent pb) ∧
    (pe ≤ 0 → peg ≤ 0 → pb ≤ 0 → _calculate_valuation_score pe peg pb = 0) := by
  refine ⟨⟨?_, ?_⟩, ?_, ?_, ?_⟩
  · exact meanOrZero_nonneg _ (fun x hx => (valuationScores_mem pe peg pb x hx).1)
  · exact meanOrZero_le_hundred _ (fun x hx => (valuationScores_mem pe peg pb x hx).2)
  · norm_num [peComponent]
  · intro h
    simp [valuationScores, peComponent, not_lt.mpr h]
  · intro h1 h2 h3
    simp [_calculate_valuation_score, valuationScores, peComponent, pegComponent,
      pbComponent, not_lt.mpr h1, not_lt.mpr h2, not_lt.mpr h3, meanOrZero]

/-- C3 witness: concrete bounds at (15, 1, 2) and the all-non-positive
case at (-1, -2, -3). -/
theorem C3_witness :
    (0 ≤ _calculate_valuation_score 15 1 2 ∧
      _calculate_valuation_score 15 1 2 ≤ 100) ∧
    _calculate_valuation_score (-1) (-2) (-3) = 0 :=
  ⟨(C3_valuation_bounds 15 1 2).1,
   (C3_valuation_bounds (-1) (-2) (-3)).2.2.2 (by norm_num) (by norm_num) (by norm_num)⟩

/-- C4: the financial health score averages up to two components — the
current-ratio clamp `max 0 (min 100 (cr * 50))`, included only when
`cr > 0`, and the debt/equity clamp `max 0 (min 100 ((2 - de) * 50))`,
included whenever `de ≥ 0`; at `de = 0` the debt/equity component is
present (with value 100). -/
theorem C4_financial_health (cr de : ℚ) :
    (0 < cr → 0 ≤ de → _calculate_financial_health_score cr de
        = (max 0 (min 100 (cr * 50)) + max 0 (min 100 ((2 - de) * 50))) / 2) ∧
    (cr ≤ 0 → 0 ≤ de → _calculate_financial_health_score cr de
        = max 0 (min 100 ((2 - de) * 50))) ∧
    (0 < cr → de < 0 → _calculate_financial_health_score cr de
        = max 0 (min 100 (cr * 50))) ∧
    (cr ≤ 0 → de < 0 → _calculate_financial_health_score cr de = 0) ∧
    debtEquityComponent 0 = [100] := by
  refine ⟨?_, ?_, ?_, ?_, by norm_num [debtEquityComponent]⟩
  · intro h1 h2
    simp [_calculate_financial_health_score, currentRatioComponent,
      debtEquityComponent, h1, h2, meanOrZero]
  · intro h1 h2
    simp [_calculate_financial_health_score, currentRatioComponent,
      debtEquityComponent, not_lt.mpr h1, h2, meanOrZero]
  · intro h1 h2
    simp [_calculate_financial_health_score, currentRatioComponent,
      debtEquityComponent, h1, not_le.mpr h2, meanOrZero]
  · intro h1 h2
    simp [_calculate_financial_health_score, currentRatioComponent,
      debtEquityComponent, not_lt.mpr h1, not_le.mpr h2, meanOrZero]

/-- C4 witness: current ratio 1 and debt/equity 0 give
(50 + 100) / 2 = 75. -/
theorem C4_witness : _calculate_financial_health_score 1 0 = 75 := by
  have h := (C4_financial_health 1 0).1 (by norm_num) (by norm_num)
  rw [h]
  norm_num

/-- C5: a snapshot that `get_company_data` legitimately produces — the
parser's fallback leaves `P/E` bound to the string `N/A` — makes
`get_stock_rating_data` raise instead of returning a rating set: the
missing-field default of 0 does not apply to present-but-string fields,
and the `pe > 0` guard is a str/int comparison. -/
theorem C5_string_field_raises :
    get_company_data sampleDoc = Except.ok [("P/E", Value.str "N/A")] ∧
    dictGet [("P/E", Value.str "N/A")] "P/E" (Value.num 0) = Value.str "N/A" ∧
    ∃ e, get_stock_rating_data [("P/E", Value.str "N/A")] = Except.error e := by
  refine ⟨?_, rfl, ?_⟩
  · simp [get_company_data, sampleDoc, pairUp, pyStrip, _convert_value, pyFloat,
      parseMantissa]
  · exact ⟨"TypeError: comparison not supported between instances of str and int",
      by simp [get_stock_rating_data, valuationScoreV, applyComp, dictGet,
        Except.instMonad, Except.bind, Except.pure]⟩

/-- C6: when no table in the document carries the snapshot selector class
`snapshot-table2`, `get_company_data` returns the empty mapping and does
not raise. -/
theorem C6_no_tables_empty_mapping (doc : Doc)
    (h : doc.filter (fun t => t.cls == some "snapshot-table2") = []) :
    get_company_data doc = Except.ok [] := by
  simp only [get_company_data, h, List.foldl_nil]

/-- C6 witness: a document holding only a sector-style table parses to the
empty snapshot. -/
theorem C6_witness :
    get_company_data [⟨some "table-light", none, [⟨none, ["Sector", "Technology"]⟩]⟩]
      = Except.ok [] :=
  C6_no_tables_empty_mapping _ rfl

/-- C7: when none of the three sector-table selectors (class
`table-light`, class `groups-table-overview`, id `groups-table-overview`,
tried in that order) matches any table, `get_sector_data` fails with the
table-not-found error; the `Except.error` result carries no partial
table. -/
theorem C7_sector_table_not_found (doc : Doc)
    (h1 : doc.find? (fun t => t.cls == some "table-light") = none)
    (h2 : doc.find? (fun t => t.cls == some "groups-table-overview") = none)
    (h3 : doc.find? (fun t => t.tid == some "groups-table-overview") = none) :
    get_sector_data doc = Except.error "Sector table not found" := by
  simp only [get_sector_data, findSectorTable, h1, h2, h3, Option.none_orElse]

/-- C7 witness: a document holding only a snapshot table triggers the
table-not-found failure. -/
theorem C7_witness :
    get_sector_data [⟨some "snapshot-table2", none, [⟨none, ["P/E", "15"]⟩]⟩]
      = Except.error "Sector table not found" :=
  C7_sector_table_not_found _ rfl rfl rfl

/-- Stepping a cycle whose pending suffix is `pool.drop d` yields the pool
entry at position `(d + i) mod K`, for any start offset `d ≤ K`. -/
theorem cycleNth_drop (pool : List String) (hpool : 0 < pool.length) :
    ∀ i : Nat, ∀ d : Nat, d ≤ pool.length →
      cycleNth (pool.drop d, pool) i = pool.get? ((d + i) % pool.length) := by
  intro i
  induction i with
  | zero =>
    intro d hd
    rcases lt_or_eq_of_le hd with hlt | heq
    · rw [List.drop_eq_getElem_cons hlt]
      show some pool[d] = pool.get? ((d + 0) % pool.length)
      rw [Nat.add_zero, Nat.mod_eq_of_lt hlt, List.get?_eq_getElem?,
        List.getElem?_eq_getElem hlt]
    · subst heq
      rw [List.drop_length]
      cases pool with
      | nil => simp at hpool
      | cons a t =>
        show some a = (a :: t).get? (((a :: t).length + 0) % (a :: t).length)
        rw [Nat.add_zero, Nat.mod_self]
        rfl
  | succ i ih =>
    intro d hd
    rcases lt_or_eq_of_le hd with hlt | heq
    · rw [List.drop_eq_getElem_cons hlt]
      show cycleNth (pool.drop (d + 1), pool) i
          = pool.get? ((d + (i + 1)) % pool.length)
      rw [ih (d + 1) hlt, show d + 1 + i = d + (i + 1) from by omega]
    · subst heq
      rw [List.drop_length]
      cases pool with
      | nil => simp at hpool
      | cons a t =>
        show cycleNth ((a :: t).drop 1, a :: t) i
            = (a :: t).get? (((a :: t).length + (i + 1)) % (a :: t).length)
        rw [ih 1 (by simp), Nat.add_mod_left, Nat.add_comm 1 i]

/-- C8: for an identity pool of size K, the user agent taken by the i-th
request (the i-th `next` on the cycle built in `__init__`) is
`pool[i mod K]`: deterministic, in pool order, wrapping to the front after
exhaustion. -/
theorem C8_identity_cycling (pool : List String) (i : Nat)
    (h : 0 < pool.length) :
    cycleNth (mkCycle pool) i = pool.get? (i % pool.length) := by
  have hd := cycleNth_drop pool h i 0 (Nat.zero_le _)
  rw [List.drop_zero, Nat.zero_add] at hd
  exact hd

/-- C8 witness: on the scraper's own five-entry pool, request 7 reuses the
third user agent (7 mod 5 = 2). -/
theorem C8_witness :
    cycleNth (mkCycle user_agents) 7 = user_agents.get? (7 % user_agents.length) :=
  C8_identity_cycling user_agents 7 (by decide)

/-- C9: with the jitter sample in its `random.uniform(0.5, 1.5)` range,
the jitter is nonnegative and at most 1.5, the GET of the next request
starts at least `min_request_interval` plus the jitter after the recorded
end of the previous fetch, and the throttling step only delays (the start
is never before the entry time) — it has no failure outcome. -/
theorem C9_throttle_gap (last_request_time now jitter : ℚ)
    (h1 : 1 / 2 ≤ jitter) (h2 : jitter ≤ 3 / 2) :
    0 ≤ jitter ∧ jitter ≤ 3 / 2 ∧
    min_request_interval + jitter
      ≤ fetchStart last_request_time now jitter - last_request_time ∧
    now ≤ fetchStart last_request_time now jitter := by
  refine ⟨by linarith, h2, ?_, ?_⟩
  · simp only [fetchStart, min_request_interval]
    split_ifs with h
    · linarith
    · simp only [min_request_interval, not_lt] at h
      linarith
  · simp only [fetchStart, min_request_interval]
    split_ifs with h
    · simp only [min_request_interval] at h
      linarith
    · linarith

/-- C9 witness: a fetch entered at time 0 with no prior request and
jitter 1 starts no earlier than interval plus jitter after time 0. -/
theorem C9_witness :
    0 ≤ (1 : ℚ) ∧ (1 : ℚ) ≤ 3 / 2 ∧
    min_request_interval + 1 ≤ fetchStart 0 0 1 - 0 ∧
    (0 : ℚ) ≤ fetchStart 0 0 1 :=
  C9_throttle_gap 0 0 1 (by norm_num) (by norm_num)

/-- C10: value normalization parses `1,234.5%` to the number 1234.5 after
stripping the comma and the percent sign, and leaves `N/A` as the
unchanged string when the float conversion fails. -/
theorem C10_convert_value :
    _convert_value "1,234.5%" = Value.num 1234.5 ∧
    _convert_value "N/A" = Value.str "N/A" := by
  constructor
  · have hm : String.mk ("1,234.5%".data.filter (fun c => !(c == ',' || c == '%')))
        = "1234.5" := rfl
    have hp : pyFloat "1234.5"
        = some ((1 : ℚ) * (((1234 : ℕ) : ℚ) + ((5 : ℕ) : ℚ) / (10 : ℚ) ^ 1)) := rfl
    simp only [_convert_value, hm, hp]
    norm_num
  · rfl

end FinvizScraper
